import Mathlib

set_option maxRecDepth 4000

/-!
Shallow embedding of the `bluedroid` GATT-server registration state machine
and event-routing engine (crate `bluedroid`, directory `src/gatt_server`).

The attribute tree (`Descriptor`, `Characteristic`, `Service`, `Profile`,
`GattServer`) is embedded as plain immutable structures; the Rust code mutates
shared `Arc<RwLock<_>>` nodes in place, which we model by returning the updated
tree from each event handler.  `Arc` aliasing of descriptors is modelled by a
`tag` field standing for the pointer identity of the shared node.  Controller
calls (`esp_ble_gatts_start_service`, `esp_ble_gatts_send_indicate`,
`esp_ble_gatts_send_response`, ...) are fire-and-forget commands; each handler
returns the list of commands it issued, in order.  A Rust `panic!`/`unwrap`
failure is modelled by the handler returning `none`.
-/

namespace Bluedroid

/-- `esp_gatt_status_t_ESP_GATT_OK` (also `ESP_BT_STATUS_SUCCESS`): the
success status code carried by confirmation events. -/
def espGattOk : Nat := 0

/-- BLE UUIDs (`utilities::BleUuid`): 16-, 32- or 128-bit. -/
inductive BleUuid where
  | uuid16 (v : Nat)
  | uuid32 (v : Nat)
  | uuid128 (v : List Nat)
deriving DecidableEq

/-- The fields of `esp_ble_gatts_cb_param_t_gatts_read_evt_param` that the
crate reads: remote address octets, connection id, transaction id and the
attribute handle being read. -/
structure GattsReadEvtParam where
  bda : List Nat
  conn_id : Nat
  trans_id : Nat
  handle : Nat
deriving DecidableEq

/-- `utilities::Connection` as used by the server: the remote address octets
and the controller-assigned connection identifier. -/
structure Connection where
  remote_bda : List Nat
  id : Nat
deriving DecidableEq

/-- `utilities::AttributeControl`.  `automaticResponse` caches a byte buffer
served by the controller; `responseByApp` carries the application's read
callback (which receives the read-request parameters). -/
inductive AttributeControl where
  | automaticResponse (value : List Nat)
  | responseByApp (callback : GattsReadEvtParam → List Nat)

/-- `gatt_server::Descriptor`.  `tag` models the `Arc` pointer identity of the
shared node (the source mutates the node through aliases returned by the
resolver); debug-only `name` and the permission flags are not observed by any
event handler and are omitted. -/
structure Descriptor where
  tag : Nat
  uuid : BleUuid
  control : AttributeControl
  attribute_handle : Option Nat

/-- The characteristic property flags read by the event handlers. -/
structure CharProperties where
  read : Bool
  write : Bool
  notify : Bool
  indicate : Bool
deriving DecidableEq

/-- `gatt_server::Characteristic`.  `write_callback` is the identity of the
registered write callback (`none` when the application registered none). -/
structure Characteristic where
  uuid : BleUuid
  properties : CharProperties
  control : AttributeControl
  write_callback : Option Nat
  descriptors : List Descriptor
  attribute_handle : Option Nat
  internal_value : List Nat

/-- `gatt_server::Service`. -/
structure Service where
  uuid : BleUuid
  characteristics : List Characteristic
  primary : Bool
  handle : Option Nat

/-- `gatt_server::Profile`. -/
structure Profile where
  services : List Service
  identifier : Nat
  interface : Option Nat

/-- `gatt_server::GattServer`: the profile list, the active-connection set
(modelled as a list) and the one-shot advertising-configuration flag.  The
device name and advertising payloads are opaque configuration referenced only
through the emitted actions. -/
structure GattServer where
  profiles : List Profile
  active_connections : List Connection
  advertisement_configured : Bool

/-- `Service::get_characteristic_by_handle`: first characteristic whose
attribute handle equals the given handle. -/
def Service.get_characteristic_by_handle (s : Service) (handle : Nat) :
    Option Characteristic :=
  s.characteristics.find? (fun c => decide (c.attribute_handle = some handle))

/-- `Service::get_characteristic_by_id`: first characteristic with the given
UUID. -/
def Service.get_characteristic_by_id (s : Service) (id : BleUuid) :
    Option Characteristic :=
  s.characteristics.find? (fun c => decide (c.uuid = id))

/-- `Service::get_descriptors_by_id`: for each characteristic, the first
descriptor carrying the given UUID (a `filter_map` over characteristics of a
`find` over its descriptors). -/
def Service.get_descriptors_by_id (s : Service) (id : BleUuid) :
    List Descriptor :=
  s.characteristics.filterMap
    (fun c => c.descriptors.find? (fun d => decide (d.uuid = id)))

/-- `Profile::get_service`: first service whose handle matches. -/
def Profile.get_service (p : Profile) (handle : Nat) : Option Service :=
  p.services.find? (fun s => decide (s.handle = some handle))

/-- `Profile::get_service_by_id`: first service with the given UUID. -/
def Profile.get_service_by_id (p : Profile) (id : BleUuid) : Option Service :=
  p.services.find? (fun s => decide (s.uuid = id))

/-- Modelled from the spec: `GattServer::get_profile` (its body is not in the
provided sources; §4.3 says events are routed to "every Profile whose recorded
interface identifier matches the event's reported interface").  Returns the
first profile whose interface identifier matches. -/
def GattServer.get_profile (srv : GattServer) (gatts_if : Nat) :
    Option Profile :=
  srv.profiles.find? (fun p => decide (p.interface = some gatts_if))

/-- Controller commands issued by the profile-level registration handlers. -/
inductive GattsAction where
  | startService (handle : Nat)
  | spawnRegisterCharacteristics (serviceUuid : BleUuid)
  | sendIndicate (gatts_if : Nat) (conn_id : Nat) (attr_handle : Nat)
      (value : List Nat) (need_confirm : Bool)
deriving DecidableEq

/-- `Service::register_characteristics` at the event-handler level: returns
immediately when the characteristic list is empty, otherwise spawns the
serial registration worker (modelled below as `regStep`/`regTrace`). -/
def Service.register_characteristics_spawn (s : Service) : List GattsAction :=
  if s.characteristics.isEmpty then []
  else [GattsAction.spawnRegisterCharacteristics s.uuid]

/-- The fields of `esp_ble_gatts_cb_param_t_gatts_create_evt_param` the crate
reads (the service id is compared through its UUID). -/
structure CreateEvtParam where
  status : Nat
  service_id : BleUuid
  service_handle : Nat
deriving DecidableEq

/-- `Profile::on_create` (gatts_event_handler/profile/create.rs): resolve the
service by UUID (warn and drop on failure), record the controller-assigned
handle, and — only when the status is OK — issue the start-service command
and begin characteristic registration. -/
def Profile.on_create (p : Profile) (param : CreateEvtParam) :
    Profile × List GattsAction :=
  match p.services.findIdx? (fun s => decide (s.uuid = param.service_id)) with
  | none => (p, [])
  | some si =>
    match p.services[si]? with
    | none => (p, [])
    | some s =>
      let s1 : Service := { s with handle := some param.service_handle }
      if param.status = espGattOk then
        ({ p with services := p.services.set si s1 },
          GattsAction.startService param.service_handle ::
            s1.register_characteristics_spawn)
      else
        ({ p with services := p.services.set si s1 }, [])

/-- The fields of `esp_ble_gatts_cb_param_t_gatts_add_char_descr_evt_param`
the crate reads. -/
structure AddCharDescrEvtParam where
  status : Nat
  attr_handle : Nat
  service_handle : Nat
  descr_uuid : BleUuid
deriving DecidableEq

/-- Assign an attribute handle to the descriptor with `Arc` identity `t`
(writing through the alias returned by `Service::get_descriptors_by_id`). -/
def Service.setDescrHandleByTag (s : Service) (t : Nat) (h : Nat) : Service :=
  { s with characteristics := s.characteristics.map (fun c =>
      { c with descriptors := c.descriptors.map (fun d =>
          if d.tag = t then { d with attribute_handle := some h } else d) }) }

/-- `Profile::on_char_add_descr` (gatts_event_handler/profile/add_char_descr.rs):
resolve the service by handle, collect the UUID-matching descriptors via
`Service::get_descriptors_by_id`, pick the first whose handle is still
unassigned (warn and drop when none), and record the handle when the status
is OK. -/
def Profile.on_char_add_descr (p : Profile) (param : AddCharDescrEvtParam) :
    Profile :=
  match p.services.findIdx?
      (fun s => decide (s.handle = some param.service_handle)) with
  | none => p
  | some si =>
    match p.services[si]? with
    | none => p
    | some service =>
      let descriptors := service.get_descriptors_by_id param.descr_uuid
      match descriptors.find? (fun d => decide (d.attribute_handle = none)) with
      | none => p
      | some descriptor =>
        if param.status = espGattOk then
          let service1 :=
            service.setDescrHandleByTag descriptor.tag param.attr_handle
          { p with services := p.services.set si service1 }
        else p

/-!
`Service::register_characteristics` spawns a worker thread that registers the
characteristics strictly serially:

    for c in characteristics {
        c.write().register_self(service_handle);
        while c.read().attribute_handle.is_none() { std::thread::yield_now(); }
    }

We embed the worker together with its environment as a labelled transition
system.  The state holds the shared `attribute_handle` cell of every
characteristic (mutated by `Profile::on_char_add` when the controller
confirms), the worker's loop position and whether the command for the current
characteristic has been issued and is being spin-waited on.  The environment
step (`confirm`) models the controller delivering the `ADD_CHAR` confirmation
for the single in-flight command, which is the controller contract the spec
assumes (one confirmation per issued command, nothing confirmed that was
never issued).
-/

/-- Shared state between the registration worker and the event handler. -/
structure RegWorkerState where
  chars : List (Option Nat)
  pos : Nat
  issued : Bool
deriving DecidableEq

/-- Observable labels of the registration worker system. -/
inductive RegLabel where
  | issue (i : Nat)
  | confirm (i : Nat) (h : Nat)
  | advance (i : Nat)
deriving DecidableEq

/-- One step of the worker/environment system. -/
inductive regStep : RegWorkerState → RegLabel → RegWorkerState → Prop where
  | issue (st : RegWorkerState) :
      st.issued = false → st.pos < st.chars.length →
      regStep st (RegLabel.issue st.pos) { st with issued := true }
  | confirm (st : RegWorkerState) (h : Nat) :
      st.issued = true → st.chars.get? st.pos = some none →
      regStep st (RegLabel.confirm st.pos h)
        { st with chars := st.chars.set st.pos (some h) }
  | advance (st : RegWorkerState) :
      st.issued = true → st.chars.get? st.pos ≠ some none →
      regStep st (RegLabel.advance st.pos)
        { st with pos := st.pos + 1, issued := false }

/-- Reflexive-transitive closure of `regStep`, recording the label trace. -/
inductive regTrace : RegWorkerState → List RegLabel → RegWorkerState → Prop where
  | nil (st : RegWorkerState) : regTrace st [] st
  | cons {st st1 st2 : RegWorkerState} {l : RegLabel} {ls : List RegLabel} :
      regStep st l st1 → regTrace st1 ls st2 → regTrace st (l :: ls) st2

/-- Initial worker state for `K` still-unregistered characteristics. -/
def initRegState (K : Nat) : RegWorkerState :=
  { chars := List.replicate K none, pos := 0, issued := false }

/-- The worker state `Service::register_characteristics` starts from: the
shared handle cells of the service's characteristics, position zero, nothing
issued. -/
def Service.registrationWorker (s : Service) : RegWorkerState :=
  { chars := s.characteristics.map (fun c => c.attribute_handle),
    pos := 0, issued := false }

/-- Number of `issue` labels (characteristic-registration commands) in a
trace. -/
def countIssues (ls : List RegLabel) : Nat :=
  ls.countP (fun l => match l with | RegLabel.issue _ => true | _ => false)

/-- Number of `confirm` labels (ADD_CHAR confirmations) in a trace. -/
def countConfirms (ls : List RegLabel) : Nat :=
  ls.countP (fun l => match l with | RegLabel.confirm _ _ => true | _ => false)

/-- Invariant of the registration worker system, tied to the label history:
the issue count tracks the loop position (plus the in-flight command), the
confirm count tracks the completed cells, every position below the loop
counter was confirmed earlier in the history, handles only appear through
confirmations, and cells at or above the loop position are still empty. -/
def RegInv (K : Nat) (ls : List RegLabel) (st : RegWorkerState) : Prop :=
  st.chars.length = K ∧
  st.pos ≤ K ∧
  (st.issued = true → st.pos < K) ∧
  (st.issued = false → countIssues ls = st.pos) ∧
  (st.issued = true → countIssues ls = st.pos + 1) ∧
  (st.issued = false → countConfirms ls = st.pos) ∧
  (st.chars.get? st.pos = some none → countConfirms ls = st.pos) ∧
  (st.issued = true → st.chars.get? st.pos ≠ some none →
    countConfirms ls = st.pos + 1) ∧
  (∀ i, i < st.pos → ∃ hh, RegLabel.confirm i hh ∈ ls) ∧
  (∀ i h, st.chars.get? i = some (some h) → ∃ hh, RegLabel.confirm i hh ∈ ls) ∧
  (∀ i, st.pos < i → i < K → st.chars.get? i = some none) ∧
  (st.issued = false → st.pos < K → st.chars.get? st.pos = some none)

/-!  The notification fan-out after a confirmed value change
(`GattServer::on_set_attr_val`, gatts_event_handler/server/set_attr_val.rs),
together with the CCCD descriptor from custom_attributes.rs. -/

/-- Upper-case hexadecimal digit. -/
def hexDigit (n : Nat) : Char :=
  if n < 10 then Char.ofNat (48 + n) else Char.ofNat (55 + n)

/-- `{:02X}` formatting of a `u8`. -/
def hexByte (n : Nat) : String :=
  String.mk [hexDigit (n / 16 % 16), hexDigit (n % 16)]

/-- `{:04X}` formatting of a `u16`. -/
def hexWord (n : Nat) : String :=
  hexByte (n / 256 % 256) ++ hexByte (n % 256)

/-- The NVS key the CCCD callbacks derive from the connection address octets
and the descriptor's attribute handle:
`format!("{:02X}{:02X}{:02X}{:02X}-{:04X}", bda[2], bda[3], bda[4], bda[5], handle)`. -/
def cccdKey (param : GattsReadEvtParam) : String :=
  hexByte (param.bda.getD 2 0) ++ hexByte (param.bda.getD 3 0) ++
    hexByte (param.bda.getD 4 0) ++ hexByte (param.bda.getD 5 0) ++
    "-" ++ hexWord param.handle

/-- The CCCD read callback (`Descriptor::cccd`, custom_attributes.rs): read
the persisted 2-byte value under the derived key from the persistence adapter
(spec §6: `get(key) -> optional bytes`); when the store holds nothing under
the key, return `[0, 0]`. -/
def cccdReadCallback (storage : String → Option (List Nat))
    (param : GattsReadEvtParam) : List Nat :=
  match storage (cccdKey param) with
  | some value => value
  | none => [0, 0]

/-- The CCCD descriptor built by `Descriptor::cccd`: UUID `0x2902`,
application-handled through `cccdReadCallback` over the given persistence
adapter, no handle until registration completes. -/
def Descriptor.cccd (tag : Nat) (storage : String → Option (List Nat)) :
    Descriptor :=
  { tag := tag, uuid := BleUuid.uuid16 0x2902,
    control := AttributeControl.responseByApp (cccdReadCallback storage),
    attribute_handle := none }

/-- Modelled from the spec: `Characteristic::get_cccd_status` (its body is
not in the provided sources; §4.4 step 1 says the simulated read "invokes the
CCCD's read callback directly" to obtain the `(notify-enabled,
indicate-enabled)` pair, and §3 says the CCCD stores a 2-byte notify/indicate
subscription bitmask).  Yields nothing when the characteristic has no
application-handled CCCD descriptor; otherwise bits 0 and 1 of the first
byte. -/
def Characteristic.get_cccd_status (c : Characteristic)
    (param : GattsReadEvtParam) : Option (Bool × Bool) :=
  match c.descriptors.find?
      (fun d => decide (d.uuid = BleUuid.uuid16 0x2902)) with
  | none => none
  | some d =>
    match d.control with
    | AttributeControl.automaticResponse _ => none
    | AttributeControl.responseByApp callback =>
      let value := callback param
      some (Nat.testBit (value.getD 0 0) 0, Nat.testBit (value.getD 0 0) 1)

/-- The simulated read-request parameters `on_set_attr_val` synthesizes for a
connection against the CCCD's attribute handle (remaining fields default). -/
def simulatedReadParam (conn : Connection) (descrHandle : Nat) :
    GattsReadEvtParam :=
  { bda := conn.remote_bda, conn_id := conn.id, trans_id := 0,
    handle := descrHandle }

/-- The fields of `esp_ble_gatts_cb_param_t_gatts_set_attr_val_evt_param` the
crate reads. -/
structure SetAttrValParam where
  status : Nat
  srvc_handle : Nat
  attr_handle : Nat
deriving DecidableEq

/-- The per-connection fan-out loop of `GattServer::on_set_attr_val`.  For
each active connection the source unwraps the CCCD descriptor and its
attribute handle (`none` models the `unwrap` panic), asks `get_cccd_status`
for the `(notification, indication)` pair and — on `None` — `return`s from
the whole handler (dropping every remaining connection); otherwise it sends
an acknowledged indicate when the characteristic supports indications and
this connection enabled them, else an unacknowledged notify when it supports
notifications and this connection enabled them. -/
def notifyLoop (gatts_if : Nat) (attr_handle : Nat) (c : Characteristic) :
    List Connection → Option (List GattsAction)
  | [] => some []
  | conn :: rest =>
    match c.descriptors.find?
        (fun d => decide (d.uuid = BleUuid.uuid16 0x2902)) with
    | none => none
    | some cccd =>
      match cccd.attribute_handle with
      | none => none
      | some dh =>
        match c.get_cccd_status (simulatedReadParam conn dh) with
        | none => some []
        | some (notification, indication) =>
          let acts :=
            if c.properties.indicate && indication then
              [GattsAction.sendIndicate gatts_if conn.id attr_handle
                c.internal_value true]
            else if c.properties.notify && notification then
              [GattsAction.sendIndicate gatts_if conn.id attr_handle
                c.internal_value false]
            else []
          match notifyLoop gatts_if attr_handle c rest with
          | none => none
          | some acts2 => some (acts ++ acts2)

/-- `GattServer::on_set_attr_val` (gatts_event_handler/server/set_attr_val.rs):
a non-OK status is only logged; unresolved profile/service/characteristic
lookups warn and drop the event; otherwise fan the value change out over the
active connections.  (The trailing `esp_ble_gatts_get_attr_value` debug read
is not an outward command and is not modelled.) -/
def GattServer.on_set_attr_val (srv : GattServer) (gatts_if : Nat)
    (param : SetAttrValParam) : Option (List GattsAction) :=
  match srv.get_profile gatts_if with
  | none => some []
  | some profile =>
    match profile.get_service param.srvc_handle with
    | none => some []
    | some service =>
      match service.get_characteristic_by_handle param.attr_handle with
      | none => some []
      | some c => notifyLoop gatts_if param.attr_handle c
          srv.active_connections

/-!  The read-request handler (`Profile::on_read`,
gatts_event_handler/profile/read.rs). -/

/-- The response construction shared by the read/write handlers:
`let mut response = [0u8; 600]; response[..value.len()].copy_from_slice(&value);`
— zero-pad the value to the 600-byte response buffer, or panic (`none`) when
the value does not fit. -/
def respBuffer (value : List Nat) : Option (List Nat) :=
  if value.length ≤ 600 then some (value ++ List.replicate (600 - value.length) 0)
  else none

/-- Observable events of the read handler: callback invocations (counted) and
`esp_ble_gatts_send_response` commands carrying the length field and the
600-byte zero-padded buffer. -/
inductive ReadAction where
  | invokeCharReadCallback (charUuid : BleUuid) (param : GattsReadEvtParam)
  | invokeDescrReadCallback (descrTag : Nat) (param : GattsReadEvtParam)
  | sendResponse (gatts_if : Nat) (conn_id : Nat) (trans_id : Nat)
      (status : Nat) (handle : Nat) (len : Nat) (value : List Nat)
deriving DecidableEq

/-- Concatenate handler results, propagating a panic (`none`). -/
def optListConcat {α : Type} : List (Option (List α)) → Option (List α)
  | [] => some []
  | x :: xs =>
    match x with
    | none => none
    | some a =>
      match optListConcat xs with
      | none => none
      | some b => some (a ++ b)

/-- The descriptor branch of `Profile::on_read`: reached only for
characteristics whose handle did not match; a matching application-handled
descriptor has its callback invoked and the result sent as the response. -/
def Descriptor.on_read_actions (d : Descriptor) (gatts_if : Nat)
    (param : GattsReadEvtParam) : Option (List ReadAction) :=
  if d.attribute_handle = some param.handle then
    match d.control with
    | AttributeControl.automaticResponse _ => some []
    | AttributeControl.responseByApp callback =>
      let value := callback param
      match respBuffer value with
      | none => none
      | some buf =>
        some [ReadAction.invokeDescrReadCallback d.tag param,
          ReadAction.sendResponse gatts_if param.conn_id param.trans_id
            espGattOk param.handle value.length buf]
  else some []

/-- The per-characteristic body of `Profile::on_read`: a matching
application-handled characteristic has its read callback invoked and the
result sent as the response; a matching static-value characteristic gets no
response from this layer; otherwise the characteristic's descriptors are
scanned. -/
def Characteristic.on_read_actions (c : Characteristic) (gatts_if : Nat)
    (param : GattsReadEvtParam) : Option (List ReadAction) :=
  if c.attribute_handle = some param.handle then
    match c.control with
    | AttributeControl.automaticResponse _ => some []
    | AttributeControl.responseByApp callback =>
      let value := callback param
      match respBuffer value with
      | none => none
      | some buf =>
        some [ReadAction.invokeCharReadCallback c.uuid param,
          ReadAction.sendResponse gatts_if param.conn_id param.trans_id
            espGattOk param.handle value.length buf]
  else
    optListConcat (c.descriptors.map
      (fun d => d.on_read_actions gatts_if param))

/-- `Profile::on_read` (gatts_event_handler/profile/read.rs): every service's
characteristic list is scanned in full (the loops never break early). -/
def Profile.on_read (p : Profile) (gatts_if : Nat)
    (param : GattsReadEvtParam) : Option (List ReadAction) :=
  optListConcat (p.services.map (fun s =>
    optListConcat (s.characteristics.map
      (fun c => c.on_read_actions gatts_if param))))

/-!
The monolithic `gatts_event_handler.rs` file is the only place in the
provided sources handling the server-level `ESP_GATTS_REG_EVT` arm and the
profile-level `ESP_GATTS_WRITE_EVT` arm; we embed those two arms from it.
Its read callbacks are nullary (`read_callback()`), so the embedding for the
write arm carries the bytes such a callback returns (`AttributeControlV0`).
-/

/-- The fields of `esp_ble_gatts_cb_param_t_gatts_reg_evt_param` the crate
reads. -/
structure RegEvtParam where
  status : Nat
  app_id : Nat
deriving DecidableEq

/-- One-time device-setup commands issued by the server REG handler. -/
inductive ServerAction where
  | setDeviceName
  | configAdvData
  | configScanRspData
deriving DecidableEq

/-- The `ESP_GATTS_REG_EVT` arm of `GattServer::gatts_event_handler`
(gatts_event_handler.rs lines 68-101): on OK status, resolve the profile by
application identifier — `.expect(...)`, i.e. panic (`none`), when no profile
matches — record the interface, and, guarded by the one-shot
`advertisement_configured` flag, set the device name and configure the
advertising and scan-response payloads (in that order, exactly once). -/
def GattServer.on_reg (srv : GattServer) (gatts_if : Nat)
    (param : RegEvtParam) : Option (GattServer × List ServerAction) :=
  if param.status = espGattOk then
    match srv.profiles.findIdx?
        (fun p => decide (p.identifier = param.app_id)) with
    | none => none
    | some i =>
      match srv.profiles[i]? with
      | none => none
      | some p =>
        let profiles1 := srv.profiles.set i { p with interface := some gatts_if }
        if srv.advertisement_configured then
          some ({ srv with profiles := profiles1 }, [])
        else
          let srv1 :=
            { srv with profiles := profiles1, advertisement_configured := true }
          some (srv1,
            [ServerAction.setDeviceName, ServerAction.configAdvData,
              ServerAction.configScanRspData])
  else some (srv, [])

/-- Fold `GattServer::on_reg` over a sequence of registration-confirmation
events (each with the interface the controller reports), concatenating the
issued setup commands. -/
def GattServer.processRegEvents (srv : GattServer) :
    List (Nat × RegEvtParam) → Option (GattServer × List ServerAction)
  | [] => some (srv, [])
  | (gif, param) :: rest =>
    match srv.on_reg gif param with
    | none => none
    | some (srv1, acts) =>
      match srv1.processRegEvents rest with
      | none => none
      | some (srv2, acts2) => some (srv2, acts ++ acts2)

/-- The monolithic handler's attribute control: its read callbacks are
nullary, so an application-handled node is embedded together with the bytes
its callback returns. -/
inductive AttributeControlV0 where
  | automaticResponse (value : List Nat)
  | responseByApp (value : List Nat)
deriving DecidableEq

/-- The monolithic handler's view of a characteristic (the fields its
`ESP_GATTS_WRITE_EVT` arm reads). -/
structure CharacteristicV0 where
  uuid : BleUuid
  attribute_handle : Option Nat
  write_callback : Option Nat
  control : AttributeControlV0
deriving DecidableEq

/-- Service as seen by the monolithic write arm. -/
structure ServiceV0 where
  characteristics : List CharacteristicV0
deriving DecidableEq

/-- Profile as seen by the monolithic write arm. -/
structure ProfileV0 where
  services : List ServiceV0
deriving DecidableEq

/-- The fields of `esp_ble_gatts_cb_param_t_gatts_write_evt_param` the crate
reads. -/
structure WriteEvtParam where
  conn_id : Nat
  trans_id : Nat
  handle : Nat
  value : List Nat
  need_rsp : Bool
deriving DecidableEq

/-- Observable events of the monolithic write arm. -/
inductive WriteAction where
  | invokeWriteCallback (cb : Nat) (value : List Nat)
  | invokeReadCallback
  | sendResponse (gatts_if : Nat) (conn_id : Nat) (trans_id : Nat)
      (status : Nat) (handle : Nat) (len : Nat) (value : List Nat)
deriving DecidableEq

/-- Per-characteristic body of the `ESP_GATTS_WRITE_EVT` arm
(gatts_event_handler.rs lines 303-356): on a handle match, if a write
callback is registered invoke it with the payload bytes; then, only when the
request needs a response and the control policy is application-handled,
invoke the read callback and send its value back zero-padded to the 600-byte
response buffer (panic — `none` — when it does not fit). -/
def CharacteristicV0.on_write_actions (c : CharacteristicV0) (gatts_if : Nat)
    (param : WriteEvtParam) : Option (List WriteAction) :=
  if c.attribute_handle = some param.handle then
    match c.write_callback with
    | none => some []
    | some cb =>
      if param.need_rsp then
        match c.control with
        | AttributeControlV0.automaticResponse _ =>
          some [WriteAction.invokeWriteCallback cb param.value]
        | AttributeControlV0.responseByApp rv =>
          match respBuffer rv with
          | none => none
          | some buf =>
            some [WriteAction.invokeWriteCallback cb param.value,
              WriteAction.invokeReadCallback,
              WriteAction.sendResponse gatts_if param.conn_id param.trans_id
                espGattOk param.handle rv.length buf]
      else some [WriteAction.invokeWriteCallback cb param.value]
  else some []

/-- The `ESP_GATTS_WRITE_EVT` arm over the whole profile: every service's
characteristic list is scanned in full. -/
def ProfileV0.on_write (p : ProfileV0) (gatts_if : Nat)
    (param : WriteEvtParam) : Option (List WriteAction) :=
  optListConcat (p.services.map (fun s =>
    optListConcat (s.characteristics.map
      (fun c => c.on_write_actions gatts_if param))))

/-- A characteristic's subtree is untouched by a read request when neither
its attribute handle nor any of its descriptors' handles match. -/
def Characteristic.avoidsHandle (c : Characteristic) (h : Nat) : Prop :=
  c.attribute_handle ≠ some h ∧
    ∀ d ∈ c.descriptors, d.attribute_handle ≠ some h

/-!  Concrete inputs used by the counterexamples and witnesses below. -/

/-- Service targeted by the failed creation event of the C1 scenario. -/
def c1Service : Service :=
  { uuid := BleUuid.uuid16 0xABCD, characteristics := [], primary := true,
    handle := none }

/-- Profile holding `c1Service`. -/
def c1Profile : Profile :=
  { services := [c1Service], identifier := 1, interface := some 3 }

/-- A service-creation confirmation with non-OK status `0x85`. -/
def c1Param : CreateEvtParam :=
  { status := 0x85, service_id := BleUuid.uuid16 0xABCD, service_handle := 40 }

/-- First of two same-UUID descriptors under one characteristic (C2). -/
def c2dA : Descriptor :=
  { tag := 1, uuid := BleUuid.uuid16 0x2902,
    control := AttributeControl.automaticResponse [], attribute_handle := none }

/-- Second of two same-UUID descriptors under one characteristic (C2). -/
def c2dB : Descriptor :=
  { tag := 2, uuid := BleUuid.uuid16 0x2902,
    control := AttributeControl.automaticResponse [], attribute_handle := none }

/-- Characteristic declaring the duplicate-UUID descriptors `[c2dA, c2dB]`. -/
def c2Char : Characteristic :=
  { uuid := BleUuid.uuid16 0x1234, properties := ⟨true, true, false, false⟩,
    control := AttributeControl.automaticResponse [], write_callback := none,
    descriptors := [c2dA, c2dB], attribute_handle := some 20,
    internal_value := [] }

/-- Service (handle `10`) holding `c2Char`. -/
def c2Service : Service :=
  { uuid := BleUuid.uuid16 0x5678, characteristics := [c2Char],
    primary := true, handle := some 10 }

/-- Profile holding `c2Service`. -/
def c2Profile : Profile :=
  { services := [c2Service], identifier := 1, interface := some 3 }

/-- First descriptor-add confirmation (OK, handle `0x30`). -/
def c2ev1 : AddCharDescrEvtParam :=
  { status := 0, attr_handle := 0x30, service_handle := 10,
    descr_uuid := BleUuid.uuid16 0x2902 }

/-- Second descriptor-add confirmation (OK, handle `0x31`). -/
def c2ev2 : AddCharDescrEvtParam :=
  { status := 0, attr_handle := 0x31, service_handle := 10,
    descr_uuid := BleUuid.uuid16 0x2902 }

/-- A still-unregistered characteristic for the C3 witness. -/
def c3Char : Characteristic :=
  { uuid := BleUuid.uuid16 0x77, properties := ⟨true, false, false, false⟩,
    control := AttributeControl.automaticResponse [], write_callback := none,
    descriptors := [], attribute_handle := none, internal_value := [] }

/-- One-characteristic service whose registration worker the C3 witness
runs. -/
def c3Service : Service :=
  { uuid := BleUuid.uuid16 0x88, characteristics := [c3Char],
    primary := true, handle := some 11 }

/-- A complete label trace of `c3Service`'s registration worker. -/
def c3Trace : List RegLabel :=
  [RegLabel.issue 0, RegLabel.confirm 0 7, RegLabel.advance 0]

/-- Connection A of the C4 scenario (notifications enabled). -/
def c4ConnA : Connection := { remote_bda := [1, 2, 3, 4, 5, 6], id := 0 }

/-- Connection B of the C4 scenario (nothing persisted). -/
def c4ConnB : Connection := { remote_bda := [9, 9, 9, 9, 9, 9], id := 1 }

/-- Persistence adapter holding `[1, 0]` (notifications on) only under
connection A's key for the CCCD handle `7`. -/
def c4Storage : String → Option (List Nat) :=
  fun k =>
    if k = cccdKey (simulatedReadParam c4ConnA 7) then some [1, 0] else none

/-- The registered CCCD of the C4 scenario (attribute handle `7`). -/
def c4Cccd : Descriptor :=
  { Descriptor.cccd 5 c4Storage with attribute_handle := some 7 }

/-- Characteristic with `notify = true`, `indicate = false` (C4). -/
def c4Char : Characteristic :=
  { uuid := BleUuid.uuid16 0x2A01, properties := ⟨true, true, true, false⟩,
    control := AttributeControl.automaticResponse [], write_callback := none,
    descriptors := [c4Cccd], attribute_handle := some 20,
    internal_value := [9, 9] }

/-- Service (handle `10`) holding `c4Char`. -/
def c4Service : Service :=
  { uuid := BleUuid.uuid16 0x180F, characteristics := [c4Char],
    primary := true, handle := some 10 }

/-- Profile holding `c4Service`, registered on interface `3`. -/
def c4Profile : Profile :=
  { services := [c4Service], identifier := 1, interface := some 3 }

/-- Server with the two active connections of the C4 scenario. -/
def c4Server : GattServer :=
  { profiles := [c4Profile], active_connections := [c4ConnA, c4ConnB],
    advertisement_configured := true }

/-- The confirmed value-change event of the C4 scenario. -/
def c4Param : SetAttrValParam :=
  { status := 0, srvc_handle := 10, attr_handle := 20 }

/-- A CCCD that has not finished registering (no attribute handle) — the C5
failing input. -/
def c5Cccd : Descriptor := Descriptor.cccd 6 c4Storage

/-- Characteristic with `notify = true` whose CCCD has no handle yet (C5). -/
def c5Char : Characteristic :=
  { uuid := BleUuid.uuid16 0x2A02, properties := ⟨true, true, true, false⟩,
    control := AttributeControl.automaticResponse [], write_callback := none,
    descriptors := [c5Cccd], attribute_handle := some 21,
    internal_value := [1] }

/-- Service (handle `12`) holding `c5Char`. -/
def c5Service : Service :=
  { uuid := BleUuid.uuid16 0x180A, characteristics := [c5Char],
    primary := true, handle := some 12 }

/-- Profile holding `c5Service`, registered on interface `3`. -/
def c5Profile : Profile :=
  { services := [c5Service], identifier := 1, interface := some 3 }

/-- Server with two active connections for the C5 failing input. -/
def c5Server : GattServer :=
  { profiles := [c5Profile], active_connections := [c4ConnA, c4ConnB],
    advertisement_configured := true }

/-- The confirmed value-change event of the C5 failing input. -/
def c5Param : SetAttrValParam :=
  { status := 0, srvc_handle := 12, attr_handle := 21 }

/-- Server whose only profile has application identifier `1` (C6). -/
def c6Server : GattServer :=
  { profiles := [{ services := [], identifier := 1, interface := none }],
    active_connections := [], advertisement_configured := false }

/-- Server with two unregistered profiles and the one-shot flag clear (C7). -/
def c7Server : GattServer :=
  { profiles := [{ services := [], identifier := 1, interface := none },
      { services := [], identifier := 2, interface := none }],
    active_connections := [], advertisement_configured := false }

/-- Registration events of the C7 witness: one failure, then two successful
registrations. -/
def c7Events : List (Nat × RegEvtParam) :=
  [(4, { status := 1, app_id := 1 }), (4, { status := 0, app_id := 1 }),
    (5, { status := 0, app_id := 2 })]

/-- The server state the C7 witness run ends in. -/
def c7Srv2 : GattServer :=
  ((c7Server.processRegEvents c7Events).getD (c7Server, [])).1

/-- The setup commands the C7 witness run issues. -/
def c7Acts : List ServerAction :=
  ((c7Server.processRegEvents c7Events).getD (c7Server, [])).2

/-- Application-handled characteristic whose read callback returns 601 bytes
(C8 failing case: it does not fit the 600-byte response buffer). -/
def c8BigChar : Characteristic :=
  { uuid := BleUuid.uuid16 0x2A03, properties := ⟨true, true, false, false⟩,
    control := AttributeControl.responseByApp (fun _ => List.replicate 601 1),
    write_callback := none, descriptors := [], attribute_handle := some 20,
    internal_value := [] }

/-- Service holding `c8BigChar`. -/
def c8BigService : Service :=
  { uuid := BleUuid.uuid16 0x180B, characteristics := [c8BigChar],
    primary := true, handle := some 10 }

/-- Profile holding `c8BigChar`. -/
def c8BigProfile : Profile :=
  { services := [c8BigService], identifier := 1, interface := some 3 }

/-- The read request addressed to handle `20` (C8). -/
def c8Param : GattsReadEvtParam :=
  { bda := [0, 0, 0, 0, 0, 0], conn_id := 4, trans_id := 5, handle := 20 }

/-- Application-handled characteristic returning a 2-byte value (C8
witness). -/
def c8Char : Characteristic :=
  { uuid := BleUuid.uuid16 0x2A04, properties := ⟨true, true, false, false⟩,
    control := AttributeControl.responseByApp (fun _ => [7, 8]),
    write_callback := none, descriptors := [], attribute_handle := some 20,
    internal_value := [] }

/-- The service the C8 witness builds around `c8Char`. -/
def c8Service : Service :=
  { uuid := BleUuid.uuid16 0x180C, characteristics := [c8Char],
    primary := true, handle := some 10 }

/-- The profile the C8 witness reads from. -/
def c8Profile : Profile :=
  { services := [c8Service], identifier := 1, interface := some 3 }

/-- Application-handled characteristic with no registered write callback —
the C9 counterexample input. -/
def c9NoCbChar : CharacteristicV0 :=
  { uuid := BleUuid.uuid16 0x2A05, attribute_handle := some 20,
    write_callback := none,
    control := AttributeControlV0.responseByApp [2, 3] }

/-- Profile holding `c9NoCbChar`. -/
def c9NoCbProfile : ProfileV0 :=
  { services := [{ characteristics := [c9NoCbChar] }] }

/-- The response-required write request of the C9 scenarios. -/
def c9Param : WriteEvtParam :=
  { conn_id := 1, trans_id := 2, handle := 20, value := [5],
    need_rsp := true }

/-- Application-handled characteristic with write callback `42` (C9
witness). -/
def c9Char : CharacteristicV0 :=
  { uuid := BleUuid.uuid16 0x2A06, attribute_handle := some 20,
    write_callback := some 42,
    control := AttributeControlV0.responseByApp [2, 3] }

/-- The profile the C9 witness writes to. -/
def c9Profile : ProfileV0 :=
  { services := [{ characteristics := [c9Char] }] }

/-- An empty persistence adapter (C10 witness). -/
def c10Storage : String → Option (List Nat) := fun _ => none

/-- A CCCD read request from a connection that never wrote its CCCD (C10
witness). -/
def c10Param : GattsReadEvtParam :=
  { bda := [1, 2, 3, 4, 5, 6], conn_id := 0, trans_id := 0, handle := 7 }

end Bluedroid

open Bluedroid

/-- C1 (counterexample to the claim as stated): at a service-creation
confirmation with non-OK status `0x85`, the targeted service's handle does
NOT stay empty — `Profile::on_create` records the event's service handle
(`some 40`) before checking the status. -/
theorem C1_counterexample :
    c1Param.status ≠ espGattOk ∧
      (Profile.on_create c1Profile c1Param).1.services.map Service.handle =
        [some 40] := by
  constructor
  · decide
  · decide

/-- C1 (amended): for every service-creation confirmation carrying a non-OK
status whose service UUID resolves in the profile, the service's handle is
nonetheless set to the event's service handle, but no start-service command
is issued and characteristic registration for that service is not begun (the
handler returns no actions at all). -/
theorem C1_amended (p : Profile) (param : CreateEvtParam) (si : Nat)
    (sv : Service)
    (hfind : p.services.findIdx? (fun s => decide (s.uuid = param.service_id))
      = some si)
    (hget : p.services[si]? = some sv)
    (hstatus : param.status ≠ espGattOk) :
    Profile.on_create p param =
      ({ p with services :=
          p.services.set si { sv with handle := some param.service_handle } },
        []) := by
  simp only [Profile.on_create, hfind, hget]
  rw [if_neg hstatus]

/-- C1 witness: `C1_amended` applied to the concrete non-OK creation event. -/
theorem C1_amended_witness :
    Profile.on_create c1Profile c1Param =
      ({ c1Profile with services :=
          c1Profile.services.set 0 { c1Service with handle := some 40 } },
        []) :=
  C1_amended c1Profile c1Param 0 c1Service (by decide) rfl (by decide)

/-- C2 (code bug, evaluated at the failing input): one characteristic with
two descriptors sharing UUID `0x2902`; two OK descriptor-add confirmations
delivered in issuance order assign a handle only to the FIRST descriptor —
the second confirmation is dropped (`Service::get_descriptors_by_id` returns
only the first UUID-matching descriptor per characteristic), so the second
sibling's handle stays `none`, violating the FIFO matching law the claim
(and the source comment "We need to set them in order of creation")
states. -/
theorem C2_code_bug :
    c2ev1.status = espGattOk ∧ c2ev2.status = espGattOk ∧
      ((c2Profile.on_char_add_descr c2ev1).on_char_add_descr c2ev2).services.map
          (fun s => s.characteristics.map
            (fun c => c.descriptors.map Descriptor.attribute_handle)) =
        [[[some 0x30, none]]] := by
  refine ⟨rfl, rfl, ?_⟩
  decide

/-- C5 (code bug, evaluated at the failing input): a confirmed value change
on a characteristic whose CCCD has no attribute handle yet makes
`GattServer::on_set_attr_val` panic (the source `unwrap`s the handle;
modelled as `none`) instead of skipping that connection — no connection of
the fan-out is processed and the process aborts, where the claim requires
only the affected connection to be skipped. -/
theorem C5_code_bug :
    c5Server.on_set_attr_val 3 c5Param = none ∧
      c5Server.active_connections ≠ [] := by
  exact ⟨rfl, by decide⟩

/-- C6 (counterexample to the claim as stated): a profile-registration
confirmation with OK status whose application identifier (`5`) matches no
profile is FATAL — the monolithic REG handler resolves the profile with
`.expect(...)`, i.e. the process panics (modelled as `none`) instead of
logging and dropping the event. -/
theorem C6_counterexample :
    GattServer.on_reg c6Server 3 { status := 0, app_id := 5 } = none := rfl

/-- C6 (amended): lookup failures are non-fatal for the set-attribute-value
event (unknown interface, unknown service handle, unknown attribute handle:
the event is logged and dropped with no commands issued) and for the
profile-level creation events (unknown service UUID, unknown service handle:
the tree is left unchanged), but a profile-registration confirmation with OK
status whose application identifier matches no profile panics (fatal). -/
theorem C6_amended :
    (∀ (srv : GattServer) (gif : Nat) (param : SetAttrValParam),
      srv.get_profile gif = none → srv.on_set_attr_val gif param = some []) ∧
    (∀ (srv : GattServer) (gif : Nat) (param : SetAttrValParam) (p : Profile),
      srv.get_profile gif = some p →
      p.get_service param.srvc_handle = none →
      srv.on_set_attr_val gif param = some []) ∧
    (∀ (srv : GattServer) (gif : Nat) (param : SetAttrValParam) (p : Profile)
      (s : Service),
      srv.get_profile gif = some p →
      p.get_service param.srvc_handle = some s →
      s.get_characteristic_by_handle param.attr_handle = none →
      srv.on_set_attr_val gif param = some []) ∧
    (∀ (p : Profile) (param : CreateEvtParam),
      p.services.findIdx? (fun s => decide (s.uuid = param.service_id)) = none →
      p.on_create param = (p, [])) ∧
    (∀ (p : Profile) (param : AddCharDescrEvtParam),
      p.services.findIdx? (fun s => decide (s.handle = some param.service_handle))
        = none →
      p.on_char_add_descr param = p) ∧
    (∀ (srv : GattServer) (gif : Nat) (param : RegEvtParam),
      param.status = espGattOk →
      srv.profiles.findIdx? (fun p => decide (p.identifier = param.app_id))
        = none →
      srv.on_reg gif param = none) := by
  refine ⟨?_, ?_, ?_, ?_, ?_, ?_⟩
  · intro srv gif param h
    unfold GattServer.on_set_attr_val
    rw [h]
  · intro srv gif param p h1 h2
    simp only [GattServer.on_set_attr_val, h1, h2]
  · intro srv gif param p s h1 h2 h3
    simp only [GattServer.on_set_attr_val, h1, h2, h3]
  · intro p param h
    unfold Profile.on_create
    rw [h]
  · intro p param h
    unfold Profile.on_char_add_descr
    rw [h]
  · intro srv gif param hok hfind
    unfold GattServer.on_reg
    rw [if_pos hok, hfind]

/-- C6 witness: the amended statement applied at concrete inputs — an empty
server drops a set-attribute-value event for an unknown interface, and the
one-profile server panics on an OK registration confirmation for the unknown
application identifier `5`. -/
theorem C6_amended_witness :
    GattServer.on_set_attr_val ⟨[], [], false⟩ 9 ⟨0, 1, 2⟩ = some [] ∧
      GattServer.on_reg c6Server 9 ⟨0, 5⟩ = none :=
  ⟨C6_amended.1 ⟨[], [], false⟩ 9 ⟨0, 1, 2⟩ rfl,
    C6_amended.2.2.2.2.2 c6Server 9 ⟨0, 5⟩ rfl rfl⟩

/-- C8 (counterexample to the claim as stated): a read of an
application-handled characteristic whose callback returns 601 bytes is NOT
answered with a value truncated to the 600-byte response buffer — the buffer
copy panics (modelled as `none`). -/
theorem C8_counterexample :
    Profile.on_read c8BigProfile 3 c8Param = none := rfl

/-- C9 (counterexample to the claim as stated): a response-required write
addressed to an application-handled characteristic that has NO registered
write callback triggers no write-callback invocation, no read-callback
invocation and no response at all — the whole response branch is nested
inside the write-callback check. -/
theorem C9_counterexample :
    c9Param.need_rsp = true ∧
      c9NoCbProfile.on_write 3 c9Param = some [] := by
  exact ⟨rfl, rfl⟩

/-- C10: for every CCCD read whose derived key (from the connection's
address octets and the descriptor's attribute handle) is absent from the
persistence store, the CCCD read callback returns exactly `[0, 0]` — both
notifications and indications disabled by default. -/
theorem C10_default_cccd (storage : String → Option (List Nat))
    (param : GattsReadEvtParam)
    (h : storage (cccdKey param) = none) :
    cccdReadCallback storage param = [0, 0] := by
  unfold cccdReadCallback
  rw [h]

/-- C10 witness: the empty store yields `[0, 0]` for a concrete read. -/
theorem C10_default_cccd_witness :
    cccdReadCallback c10Storage c10Param = [0, 0] :=
  C10_default_cccd c10Storage c10Param rfl

/-- C4: for a characteristic with `notify = true` and `indicate = false` and
two active connections of which only connection A has notifications enabled
in persisted CCCD state, a confirmed value-change event produces exactly one
unacknowledged notify (`need_confirm = false`), addressed to connection A
only.  The CCCD state is read through `Descriptor::cccd`'s persistence-backed
callback; `Characteristic::get_cccd_status` is modelled from the spec. -/
theorem C4_single_notify
    (srv : GattServer) (gatts_if : Nat) (param : SetAttrValParam)
    (profile : Profile) (service : Service) (c : Characteristic)
    (cccd : Descriptor) (dh : Nat) (storage : String → Option (List Nat))
    (connA connB : Connection)
    (hprof : srv.get_profile gatts_if = some profile)
    (hserv : profile.get_service param.srvc_handle = some service)
    (hchar : service.get_characteristic_by_handle param.attr_handle = some c)
    (hnotify : c.properties.notify = true)
    (hindicate : c.properties.indicate = false)
    (hfind : c.descriptors.find?
      (fun d => decide (d.uuid = BleUuid.uuid16 0x2902)) = some cccd)
    (hdh : cccd.attribute_handle = some dh)
    (hctl : cccd.control
      = AttributeControl.responseByApp (cccdReadCallback storage))
    (hconns : srv.active_connections = [connA, connB] ∨
      srv.active_connections = [connB, connA])
    (hA : storage (cccdKey (simulatedReadParam connA dh)) = some [1, 0])
    (hB : storage (cccdKey (simulatedReadParam connB dh)) = none) :
    srv.on_set_attr_val gatts_if param =
      some [GattsAction.sendIndicate gatts_if connA.id param.attr_handle
        c.internal_value false] := by
  have hstA : c.get_cccd_status (simulatedReadParam connA dh)
      = some (true, false) := by
    simp only [Characteristic.get_cccd_status, hfind, hctl, cccdReadCallback,
      hA]
    decide
  have hstB : c.get_cccd_status (simulatedReadParam connB dh)
      = some (false, false) := by
    simp only [Characteristic.get_cccd_status, hfind, hctl, cccdReadCallback,
      hB]
    decide
  simp only [GattServer.on_set_attr_val, hprof, hserv, hchar]
  rcases hconns with h | h <;>
    simp [h, notifyLoop, hfind, hdh, hstA, hstB, hnotify, hindicate]

/-- C4 witness: `C4_single_notify` applied to the concrete two-connection
server; only connection A (id 0) is notified. -/
theorem C4_single_notify_witness :
    c4Server.on_set_attr_val 3 c4Param =
      some [GattsAction.sendIndicate 3 c4ConnA.id c4Param.attr_handle
        c4Char.internal_value false] :=
  C4_single_notify c4Server 3 c4Param c4Profile c4Service c4Char c4Cccd 7
    c4Storage c4ConnA c4ConnB rfl rfl rfl rfl rfl rfl rfl rfl (Or.inl rfl)
    (by decide) (by decide)

/-- A registration confirmation with non-OK status changes nothing and issues
no setup commands. -/
theorem onReg_failure (srv : GattServer) (gif : Nat) (param : RegEvtParam)
    (hok : param.status ≠ espGattOk) :
    srv.on_reg gif param = some (srv, []) := by
  unfold GattServer.on_reg
  rw [if_neg hok]

/-- Once the one-shot flag is set, a registration confirmation issues no
setup commands and keeps the flag set. -/
theorem onReg_configured (srv : GattServer) (gif : Nat) (param : RegEvtParam)
    (srv1 : GattServer) (acts : List ServerAction)
    (hflag : srv.advertisement_configured = true)
    (h : srv.on_reg gif param = some (srv1, acts)) :
    acts = [] ∧ srv1.advertisement_configured = true := by
  by_cases hok : param.status = espGattOk
  · rcases hfix : srv.profiles.findIdx?
        (fun p => decide (p.identifier = param.app_id)) with _ | i
    · simp only [GattServer.on_reg, if_pos hok, hfix] at h
      cases h
    · rcases hget : srv.profiles[i]? with _ | p
      · simp only [GattServer.on_reg, if_pos hok, hfix, hget] at h
        cases h
      · simp only [GattServer.on_reg, if_pos hok, hfix, hget, hflag,
          if_true, Option.some.injEq, Prod.mk.injEq] at h
        obtain ⟨h1, h2⟩ := h
        refine ⟨h2.symm, ?_⟩
        rw [← h1]
  · rw [onReg_failure srv gif param hok] at h
    simp only [Option.some.injEq, Prod.mk.injEq] at h
    obtain ⟨h1, h2⟩ := h
    exact ⟨h2.symm, h1 ▸ hflag⟩

/-- On the first successful registration confirmation (flag still clear), the
three setup commands are issued and the flag becomes set. -/
theorem onReg_first_success (srv : GattServer) (gif : Nat)
    (param : RegEvtParam) (srv1 : GattServer) (acts : List ServerAction)
    (hflag : srv.advertisement_configured = false)
    (hok : param.status = espGattOk)
    (h : srv.on_reg gif param = some (srv1, acts)) :
    acts = [ServerAction.setDeviceName, ServerAction.configAdvData,
      ServerAction.configScanRspData] ∧
      srv1.advertisement_configured = true := by
  rcases hfix : srv.profiles.findIdx?
      (fun p => decide (p.identifier = param.app_id)) with _ | i
  · simp only [GattServer.on_reg, if_pos hok, hfix] at h
    cases h
  · rcases hget : srv.profiles[i]? with _ | p
    · simp only [GattServer.on_reg, if_pos hok, hfix, hget] at h
      cases h
    · simp only [GattServer.on_reg, if_pos hok, hfix, hget, hflag,
        Bool.false_eq_true, if_false, Option.some.injEq, Prod.mk.injEq] at h
      obtain ⟨h1, h2⟩ := h
      refine ⟨h2.symm, ?_⟩
      rw [← h1]

/-- After the flag is set, a whole run of registration confirmations issues
no setup commands at all. -/
theorem processRegEvents_configured (evts : List (Nat × RegEvtParam)) :
    ∀ (srv srv2 : GattServer) (acts : List ServerAction),
      srv.advertisement_configured = true →
      srv.processRegEvents evts = some (srv2, acts) → acts = [] := by
  induction evts with
  | nil =>
    intro srv srv2 acts hflag h
    simp only [GattServer.processRegEvents, Option.some.injEq,
      Prod.mk.injEq] at h
    exact h.2.symm
  | cons e rest ih =>
    intro srv srv2 acts hflag h
    obtain ⟨gif, param⟩ := e
    rcases hreg : srv.on_reg gif param with _ | pair
    · simp only [GattServer.processRegEvents, hreg] at h
      exact Option.noConfusion h
    · obtain ⟨srv1, a1⟩ := pair
      rcases hrec : srv1.processRegEvents rest with _ | pair2
      · simp only [GattServer.processRegEvents, hreg, hrec] at h
        exact Option.noConfusion h
      · obtain ⟨s2, a2⟩ := pair2
        simp only [GattServer.processRegEvents, hreg, hrec,
          Option.some.injEq, Prod.mk.injEq] at h
        obtain ⟨ha, hcfg⟩ := onReg_configured srv gif param srv1 a1 hflag hreg
        have ha2 := ih srv1 s2 a2 hcfg hrec
        rw [← h.2, ha, ha2]
        rfl

/-- C7: starting from a server whose one-shot flag is clear, any completed
(non-panicking) run of profile-registration confirmations performs the
one-time device setup — set device name, configure advertising data,
configure scan-response data, in that order — exactly once when at least one
confirmation is successful, and never performs any part of it again no
matter how many further profiles register successfully; with no successful
confirmation it never happens at all. -/
theorem C7_setup_once (evts : List (Nat × RegEvtParam)) :
    ∀ (srv srv2 : GattServer) (acts : List ServerAction),
      srv.advertisement_configured = false →
      srv.processRegEvents evts = some (srv2, acts) →
      acts = (if evts.any (fun e => decide (e.2.status = espGattOk))
              then [ServerAction.setDeviceName, ServerAction.configAdvData,
                ServerAction.configScanRspData]
              else []) := by
  induction evts with
  | nil =>
    intro srv srv2 acts hflag h
    simp only [GattServer.processRegEvents, Option.some.injEq,
      Prod.mk.injEq] at h
    simp [← h.2]
  | cons e rest ih =>
    intro srv srv2 acts hflag h
    obtain ⟨gif, param⟩ := e
    rcases hreg : srv.on_reg gif param with _ | pair
    · simp only [GattServer.processRegEvents, hreg] at h
      exact Option.noConfusion h
    · obtain ⟨srv1, a1⟩ := pair
      rcases hrec : srv1.processRegEvents rest with _ | pair2
      · simp only [GattServer.processRegEvents, hreg, hrec] at h
        exact Option.noConfusion h
      · obtain ⟨s2, a2⟩ := pair2
        simp only [GattServer.processRegEvents, hreg, hrec,
          Option.some.injEq, Prod.mk.injEq] at h
        by_cases hok : param.status = espGattOk
        · obtain ⟨ha1, hcfg⟩ :=
            onReg_first_success srv gif param srv1 a1 hflag hok hreg
          have ha2 := processRegEvents_configured rest srv1 s2 a2 hcfg hrec
          rw [← h.2, ha1, ha2]
          simp [hok]
        · have hfail := onReg_failure srv gif param hok
          rw [hfail] at hreg
          simp only [Option.some.injEq, Prod.mk.injEq] at hreg
          obtain ⟨hs, hals⟩ := hreg
          have ha2 := ih srv1 s2 a2 (hs ▸ hflag) hrec
          rw [← h.2, ← hals, ha2]
          cases hb : rest.any (fun e => decide (e.2.status = espGattOk)) <;>
            simp [hb, hok]

/-- C7 witness: `C7_setup_once` applied to a concrete run — one failed and
two successful registrations issue the setup commands exactly once. -/
theorem C7_setup_once_witness :
    c7Acts = [ServerAction.setDeviceName, ServerAction.configAdvData,
      ServerAction.configScanRspData] := by
  have h := C7_setup_once c7Events c7Server c7Srv2 c7Acts rfl rfl
  rw [h]
  rfl

/-- A silent head handler contributes nothing to the concatenation. -/
theorem optListConcat_cons_nil {α : Type} (xs : List (Option (List α))) :
    optListConcat (some [] :: xs) = optListConcat xs := by
  cases h : optListConcat xs with
  | none => simp [optListConcat, h]
  | some b => simp [optListConcat, h]

/-- Handlers that all return no actions concatenate to no actions. -/
theorem optListConcat_all_nil {α β : Type} (f : β → Option (List α)) :
    ∀ (l : List β), (∀ x ∈ l, f x = some []) →
      optListConcat (l.map f) = some [] := by
  intro l
  induction l with
  | nil => intro _; rfl
  | cons x xs ih =>
    intro h
    have hx := h x (by simp)
    have hxs := ih (fun y hy => h y (by simp [hy]))
    rw [List.map_cons, hx, optListConcat_cons_nil]
    exact hxs

/-- A single hit among otherwise silent handlers yields exactly its
actions. -/
theorem optListConcat_segment {α β : Type} (f : β → Option (List α)) (x : β)
    (acts : List α) (hx : f x = some acts) :
    ∀ (l1 l2 : List β), (∀ y ∈ l1, f y = some []) →
      (∀ y ∈ l2, f y = some []) →
      optListConcat ((l1 ++ x :: l2).map f) = some acts := by
  intro l1
  induction l1 with
  | nil =>
    intro l2 h1 h2
    simp [optListConcat, hx, optListConcat_all_nil f l2 h2]
  | cons y ys ih =>
    intro l2 h1 h2
    have hy := h1 y (by simp)
    have hrest := ih l2 (fun z hz => h1 z (by simp [hz])) h2
    rw [List.cons_append, List.map_cons, hy, optListConcat_cons_nil]
    exact hrest

/-- A descriptor whose handle does not match produces no read actions. -/
theorem descr_read_miss (d : Descriptor) (gif : Nat)
    (param : GattsReadEvtParam)
    (h : d.attribute_handle ≠ some param.handle) :
    d.on_read_actions gif param = some [] := by
  unfold Descriptor.on_read_actions
  rw [if_neg h]

/-- A characteristic whose subtree avoids the handle produces no read
actions. -/
theorem char_read_miss (c : Characteristic) (gif : Nat)
    (param : GattsReadEvtParam) (h : c.avoidsHandle param.handle) :
    c.on_read_actions gif param = some [] := by
  obtain ⟨h1, h2⟩ := h
  unfold Characteristic.on_read_actions
  rw [if_neg h1]
  exact optListConcat_all_nil _ c.descriptors
    (fun d hd => descr_read_miss d gif param (h2 d hd))

/-- The matching application-handled characteristic invokes its callback once
and sends the zero-padded response. -/
theorem char_read_hit (c : Characteristic) (gif : Nat)
    (param : GattsReadEvtParam) (cb : GattsReadEvtParam → List Nat)
    (hh : c.attribute_handle = some param.handle)
    (hctl : c.control = AttributeControl.responseByApp cb)
    (hlen : (cb param).length ≤ 600) :
    c.on_read_actions gif param =
      some [ReadAction.invokeCharReadCallback c.uuid param,
        ReadAction.sendResponse gif param.conn_id param.trans_id espGattOk
          param.handle (cb param).length
          (cb param ++ List.replicate (600 - (cb param).length) 0)] := by
  unfold Characteristic.on_read_actions
  rw [if_pos hh]
  simp only [hctl, respBuffer, if_pos hlen]

/-- C8 (amended): for every read request addressed to the attribute handle of
an application-handled characteristic — the unique holder of that handle in
the profile's tree — whose callback value fits the 600-byte response buffer,
the read callback is invoked exactly once and the response carries the
callback's bytes zero-padded to the buffer size, with the length field set to
the value's true length.  (A value longer than the buffer makes the handler
panic — see the counterexample — instead of being truncated.) -/
theorem C8_read_response (ss1 ss2 : List Service)
    (cs1 cs2 : List Characteristic) (su : Service) (c : Characteristic)
    (cb : GattsReadEvtParam → List Nat) (ident : Nat) (intf : Option Nat)
    (gif : Nat) (param : GattsReadEvtParam)
    (hh : c.attribute_handle = some param.handle)
    (hctl : c.control = AttributeControl.responseByApp cb)
    (hlen : (cb param).length ≤ 600)
    (hss : ∀ s ∈ ss1 ++ ss2, ∀ c1 ∈ s.characteristics,
      c1.avoidsHandle param.handle)
    (hcs : ∀ c1 ∈ cs1 ++ cs2, c1.avoidsHandle param.handle) :
    Profile.on_read
      { services := ss1 ++ { su with characteristics := cs1 ++ c :: cs2 } :: ss2,
        identifier := ident, interface := intf } gif param =
      some [ReadAction.invokeCharReadCallback c.uuid param,
        ReadAction.sendResponse gif param.conn_id param.trans_id espGattOk
          param.handle (cb param).length
          (cb param ++ List.replicate (600 - (cb param).length) 0)] := by
  unfold Profile.on_read
  show optListConcat
    ((ss1 ++ { su with characteristics := cs1 ++ c :: cs2 } :: ss2).map
      (fun s => optListConcat (s.characteristics.map
        (fun c1 => c1.on_read_actions gif param)))) = _
  refine optListConcat_segment
    (fun s => optListConcat (s.characteristics.map
      (fun c1 => c1.on_read_actions gif param)))
    { su with characteristics := cs1 ++ c :: cs2 } _ ?_ ss1 ss2 ?_ ?_
  · show optListConcat ((cs1 ++ c :: cs2).map
      (fun c1 => c1.on_read_actions gif param)) = _
    refine optListConcat_segment
      (fun c1 => c1.on_read_actions gif param) c _
      (char_read_hit c gif param cb hh hctl hlen) cs1 cs2 ?_ ?_
    · intro y hy
      exact char_read_miss y gif param (hcs y (by simp [hy]))
    · intro y hy
      exact char_read_miss y gif param (hcs y (by simp [hy]))
  · intro s hs
    exact optListConcat_all_nil _ s.characteristics
      (fun c1 hc1 => char_read_miss c1 gif param
        (hss s (by simp [hs]) c1 hc1))
  · intro s hs
    exact optListConcat_all_nil _ s.characteristics
      (fun c1 hc1 => char_read_miss c1 gif param
        (hss s (by simp [hs]) c1 hc1))

/-- C8 witness: `C8_read_response` on a one-service, one-characteristic
profile whose callback returns `[7, 8]`. -/
theorem C8_read_response_witness :
    Profile.on_read c8Profile 3 c8Param =
      some [ReadAction.invokeCharReadCallback c8Char.uuid c8Param,
        ReadAction.sendResponse 3 c8Param.conn_id c8Param.trans_id espGattOk
          c8Param.handle 2 ([7, 8] ++ List.replicate 598 0)] :=
  C8_read_response [] [] [] [] c8Service c8Char (fun _ => [7, 8]) 1 (some 3)
    3 c8Param rfl rfl (by decide) (by intro s hs; simp at hs)
    (by intro c1 hc1; simp at hc1)

/-- A monolithic-view characteristic whose handle does not match produces no
write actions. -/
theorem charV0_write_miss (c : CharacteristicV0) (gif : Nat)
    (param : WriteEvtParam)
    (h : c.attribute_handle ≠ some param.handle) :
    c.on_write_actions gif param = some [] := by
  unfold CharacteristicV0.on_write_actions
  rw [if_neg h]

/-- The matching application-handled characteristic with a registered write
callback invokes it, then the read callback, then sends the response. -/
theorem charV0_write_hit (c : CharacteristicV0) (gif : Nat)
    (param : WriteEvtParam) (cb : Nat) (rv : List Nat)
    (hh : c.attribute_handle = some param.handle)
    (hcb : c.write_callback = some cb)
    (hctl : c.control = AttributeControlV0.responseByApp rv)
    (hrsp : param.need_rsp = true)
    (hlen : rv.length ≤ 600) :
    c.on_write_actions gif param =
      some [WriteAction.invokeWriteCallback cb param.value,
        WriteAction.invokeReadCallback,
        WriteAction.sendResponse gif param.conn_id param.trans_id espGattOk
          param.handle rv.length
          (rv ++ List.replicate (600 - rv.length) 0)] := by
  unfold CharacteristicV0.on_write_actions
  rw [if_pos hh]
  simp only [hcb, hrsp, if_true, hctl, respBuffer, if_pos hlen]

/-- C9 (amended): for every response-required write addressed to the unique
characteristic holding that handle, whose control policy is
application-handled AND which has a registered write callback, exactly one
write-callback invocation occurs, followed by exactly one read-callback
invocation, before the single response carrying the read callback's value is
sent.  (With no registered write callback nothing at all happens — see the
counterexample.) -/
theorem C9_write_then_read (ss1 ss2 : List ServiceV0)
    (cs1 cs2 : List CharacteristicV0) (c : CharacteristicV0) (cb : Nat)
    (rv : List Nat) (gif : Nat) (param : WriteEvtParam)
    (hh : c.attribute_handle = some param.handle)
    (hcb : c.write_callback = some cb)
    (hctl : c.control = AttributeControlV0.responseByApp rv)
    (hrsp : param.need_rsp = true)
    (hlen : rv.length ≤ 600)
    (hss : ∀ s ∈ ss1 ++ ss2, ∀ c1 ∈ s.characteristics,
      c1.attribute_handle ≠ some param.handle)
    (hcs : ∀ c1 ∈ cs1 ++ cs2, c1.attribute_handle ≠ some param.handle) :
    ProfileV0.on_write
      { services := ss1 ++ { characteristics := cs1 ++ c :: cs2 } :: ss2 }
      gif param =
      some [WriteAction.invokeWriteCallback cb param.value,
        WriteAction.invokeReadCallback,
        WriteAction.sendResponse gif param.conn_id param.trans_id espGattOk
          param.handle rv.length
          (rv ++ List.replicate (600 - rv.length) 0)] := by
  unfold ProfileV0.on_write
  show optListConcat
    ((ss1 ++ ({ characteristics := cs1 ++ c :: cs2 } : ServiceV0) :: ss2).map
      (fun s => optListConcat (s.characteristics.map
        (fun c1 => c1.on_write_actions gif param)))) = _
  refine optListConcat_segment
    (fun s => optListConcat (s.characteristics.map
      (fun c1 => c1.on_write_actions gif param)))
    ({ characteristics := cs1 ++ c :: cs2 } : ServiceV0) _ ?_ ss1 ss2 ?_ ?_
  · show optListConcat ((cs1 ++ c :: cs2).map
      (fun c1 => c1.on_write_actions gif param)) = _
    refine optListConcat_segment
      (fun c1 => c1.on_write_actions gif param) c _
      (charV0_write_hit c gif param cb rv hh hcb hctl hrsp hlen) cs1 cs2 ?_ ?_
    · intro y hy
      exact charV0_write_miss y gif param (hcs y (by simp [hy]))
    · intro y hy
      exact charV0_write_miss y gif param (hcs y (by simp [hy]))
  · intro s hs
    exact optListConcat_all_nil _ s.characteristics
      (fun c1 hc1 => charV0_write_miss c1 gif param
        (hss s (by simp [hs]) c1 hc1))
  · intro s hs
    exact optListConcat_all_nil _ s.characteristics
      (fun c1 hc1 => charV0_write_miss c1 gif param
        (hss s (by simp [hs]) c1 hc1))

/-- C9 witness: `C9_write_then_read` on a one-service, one-characteristic
profile with write callback `42` and read value `[2, 3]`. -/
theorem C9_write_then_read_witness :
    ProfileV0.on_write c9Profile 3 c9Param =
      some [WriteAction.invokeWriteCallback 42 c9Param.value,
        WriteAction.invokeReadCallback,
        WriteAction.sendResponse 3 c9Param.conn_id c9Param.trans_id espGattOk
          c9Param.handle 2 ([2, 3] ++ List.replicate 598 0)] :=
  C9_write_then_read [] [] [] [] c9Char 42 [2, 3] 3 c9Param rfl rfl rfl rfl
    (by decide) (by intro s hs; simp at hs) (by intro c1 hc1; simp at hc1)

/-- Indexing into an updated list. -/
theorem listGet_set {α : Type} (v : α) :
    ∀ (l : List α) (i j : Nat),
      (l.set i v).get? j =
        if i = j ∧ j < l.length then some v else l.get? j := by
  intro l
  induction l with
  | nil =>
    intro i j
    cases i <;> simp
  | cons x xs ih =>
    intro i j
    cases i with
    | zero =>
      cases j with
      | zero => simp
      | succ j => simp
    | succ i =>
      cases j with
      | zero => simp
      | succ j =>
        have := ih i j
        simp only [List.set, List.get?, this, List.length_cons]
        by_cases hc : i = j ∧ j < xs.length
        · rw [if_pos hc, if_pos (by omega)]
        · rw [if_neg hc, if_neg (by omega)]

/-- Indexing into a replicated list. -/
theorem listGet_replicate {α : Type} (a : α) :
    ∀ (n i : Nat),
      (List.replicate n a).get? i = if i < n then some a else none := by
  intro n
  induction n with
  | zero => intro i; simp
  | succ n ih =>
    intro i
    cases i with
    | zero => simp [List.replicate]
    | succ i => simpa [List.replicate] using ih i

/-- Indexing into a mapped list. -/
theorem listGet_map {α β : Type} (f : α → β) :
    ∀ (l : List α) (i : Nat), (l.map f).get? i = (l.get? i).map f := by
  intro l
  induction l with
  | nil => intro i; cases i <;> rfl
  | cons x xs ih =>
    intro i
    cases i with
    | zero => rfl
    | succ i => exact ih i

/-- In-bounds indices yield elements. -/
theorem listGet_lt {α : Type} :
    ∀ (l : List α) (i : Nat), i < l.length → ∃ a, l.get? i = some a := by
  intro l
  induction l with
  | nil => intro i h; exact absurd h (Nat.not_lt_zero i)
  | cons x xs ih =>
    intro i h
    cases i with
    | zero => exact ⟨x, rfl⟩
    | succ i => exact ih i (Nat.lt_of_succ_lt_succ h)

/-- Indexed elements are members. -/
theorem listGet_mem {α : Type} :
    ∀ (l : List α) (i : Nat) (a : α), l.get? i = some a → a ∈ l := by
  intro l
  induction l with
  | nil => intro i a h; exact Option.noConfusion h
  | cons x xs ih =>
    intro i a h
    cases i with
    | zero =>
      cases h
      exact List.Mem.head xs
    | succ i => exact List.Mem.tail x (ih i a h)

/-- `countIssues` distributes over append. -/
theorem countIssues_append (a b : List RegLabel) :
    countIssues (a ++ b) = countIssues a + countIssues b := by
  simp [countIssues, List.countP_append]

/-- `countConfirms` distributes over append. -/
theorem countConfirms_append (a b : List RegLabel) :
    countConfirms (a ++ b) = countConfirms a + countConfirms b := by
  simp [countConfirms, List.countP_append]

/-- At the start of `Service::register_characteristics` — every
characteristic still unregistered — the invariant holds with an empty
history. -/
theorem regInv_init (s : Service)
    (hall : ∀ c ∈ s.characteristics, c.attribute_handle = none) :
    RegInv s.characteristics.length [] s.registrationWorker := by
  have hempty : ∀ (i : Nat), i < s.characteristics.length →
      (s.characteristics.map (fun c => c.attribute_handle)).get? i
        = some none := by
    intro i hi
    obtain ⟨c, hc⟩ := listGet_lt s.characteristics i hi
    rw [listGet_map, hc, Option.map_some',
      hall c (listGet_mem s.characteristics i c hc)]
  unfold RegInv Service.registrationWorker
  refine ⟨by simp, by simp, ?_, ?_, ?_, ?_, ?_, ?_, ?_, ?_, ?_, ?_⟩
  · intro hf
    exact Bool.noConfusion hf
  · intro _
    rfl
  · intro hf
    exact Bool.noConfusion hf
  · intro _
    rfl
  · intro _
    rfl
  · intro hf
    exact Bool.noConfusion hf
  · intro i hi
    exact absurd hi (Nat.not_lt_zero i)
  · intro i h hgot
    rw [listGet_map] at hgot
    rcases hg : (s.characteristics.get? i) with _ | c
    · rw [hg] at hgot
      exact Option.noConfusion hgot
    · rw [hg] at hgot
      have hc := hall c (listGet_mem s.characteristics i c hg)
      simp only [Option.map_some'] at hgot
      rw [hc] at hgot
      simp at hgot
  · intro i _ hiK
    exact hempty i (by simpa using hiK)
  · intro _ hK
    exact hempty 0 (by simpa using hK)

/-- Counting `issue` labels over a one-label extension of the history. -/
theorem countIssues_snoc_issue (ls : List RegLabel) (i : Nat) :
    countIssues (ls ++ [RegLabel.issue i]) = countIssues ls + 1 := by
  simp [countIssues, List.countP_append, List.countP_cons]

/-- `confirm` labels do not change the issue count. -/
theorem countIssues_snoc_confirm (ls : List RegLabel) (i h : Nat) :
    countIssues (ls ++ [RegLabel.confirm i h]) = countIssues ls := by
  simp [countIssues, List.countP_append, List.countP_cons]

/-- `advance` labels do not change the issue count. -/
theorem countIssues_snoc_advance (ls : List RegLabel) (i : Nat) :
    countIssues (ls ++ [RegLabel.advance i]) = countIssues ls := by
  simp [countIssues, List.countP_append, List.countP_cons]

/-- Counting `confirm` labels over a one-label extension of the history. -/
theorem countConfirms_snoc_confirm (ls : List RegLabel) (i h : Nat) :
    countConfirms (ls ++ [RegLabel.confirm i h]) = countConfirms ls + 1 := by
  simp [countConfirms, List.countP_append, List.countP_cons]

/-- `issue` labels do not change the confirm count. -/
theorem countConfirms_snoc_issue (ls : List RegLabel) (i : Nat) :
    countConfirms (ls ++ [RegLabel.issue i]) = countConfirms ls := by
  simp [countConfirms, List.countP_append, List.countP_cons]

/-- `advance` labels do not change the confirm count. -/
theorem countConfirms_snoc_advance (ls : List RegLabel) (i : Nat) :
    countConfirms (ls ++ [RegLabel.advance i]) = countConfirms ls := by
  simp [countConfirms, List.countP_append, List.countP_cons]

/-- One system step preserves the invariant, extending the history. -/
theorem regInv_step {K : Nat} {ls : List RegLabel} {st st1 : RegWorkerState}
    {l : RegLabel} (hstep : regStep st l st1) (hinv : RegInv K ls st) :
    RegInv K (ls ++ [l]) st1 := by
  obtain ⟨hlen, hpos, hposlt, hciF, hciT, hccF, hccN, hccS, horder, hconf,
    habove, hcur⟩ := hinv
  cases hstep with
  | issue hiss hlt =>
    have hposK : st.pos < K := hlen ▸ hlt
    have hc0 : st.chars.get? st.pos = some none := hcur hiss hposK
    refine ⟨hlen, hpos, fun _ => hposK, ?_, ?_, ?_, ?_, ?_, ?_, ?_, habove,
      ?_⟩
    · intro hf
      exact Bool.noConfusion hf
    · intro _
      rw [countIssues_snoc_issue, hciF hiss]
    · intro hf
      exact Bool.noConfusion hf
    · intro hcell
      rw [countConfirms_snoc_issue]
      exact hccN hcell
    · intro _ hne1
      exact absurd hc0 hne1
    · intro i hi
      obtain ⟨hh, hmem⟩ := horder i hi
      exact ⟨hh, List.mem_append_left _ hmem⟩
    · intro i h hgot
      obtain ⟨hh, hmem⟩ := hconf i h hgot
      exact ⟨hh, List.mem_append_left _ hmem⟩
    · intro hf
      exact Bool.noConfusion hf
  | confirm h hiss hcell =>
    have hposK : st.pos < K := hposlt hiss
    have hlt : st.pos < st.chars.length := hlen ▸ hposK
    refine ⟨by simpa using hlen, hpos, fun _ => hposK, ?_, ?_, ?_, ?_, ?_,
      ?_, ?_, ?_, ?_⟩
    · intro hf
      rw [hiss] at hf
      exact Bool.noConfusion hf
    · intro _
      rw [countIssues_snoc_confirm]
      exact hciT hiss
    · intro hf
      rw [hiss] at hf
      exact Bool.noConfusion hf
    · intro hcell1
      rw [listGet_set, if_pos ⟨rfl, hlt⟩] at hcell1
      simp at hcell1
    · intro _ _
      rw [countConfirms_snoc_confirm, hccN hcell]
    · intro i hi
      obtain ⟨hh, hmem⟩ := horder i hi
      exact ⟨hh, List.mem_append_left _ hmem⟩
    · intro i h1 hgot
      by_cases hip : st.pos = i
      · subst hip
        exact ⟨h, List.mem_append_right _ (by simp)⟩
      · rw [listGet_set, if_neg (fun hc => hip hc.1)] at hgot
        obtain ⟨hh, hmem⟩ := hconf i h1 hgot
        exact ⟨hh, List.mem_append_left _ hmem⟩
    · intro i hgt hiK
      rw [listGet_set, if_neg (fun hc => (Nat.ne_of_lt hgt) hc.1)]
      exact habove i hgt hiK
    · intro hf
      rw [hiss] at hf
      exact Bool.noConfusion hf
  | advance hiss hne =>
    have hposK : st.pos < K := hposlt hiss
    have hpos1 : st.pos + 1 ≤ K := hposK
    refine ⟨hlen, hpos1, ?_, ?_, ?_, ?_, ?_, ?_, ?_, ?_, ?_, ?_⟩
    · intro hf
      exact Bool.noConfusion hf
    · intro _
      rw [countIssues_snoc_advance]
      exact hciT hiss
    · intro hf
      exact Bool.noConfusion hf
    · intro _
      rw [countConfirms_snoc_advance]
      exact hccS hiss hne
    · intro _
      rw [countConfirms_snoc_advance]
      exact hccS hiss hne
    · intro hf
      exact Bool.noConfusion hf
    · intro i hi
      rcases Nat.lt_succ_iff_lt_or_eq.mp hi with hilt | hieq
      · obtain ⟨hh, hmem⟩ := horder i hilt
        exact ⟨hh, List.mem_append_left _ hmem⟩
      · subst hieq
        obtain ⟨a, ha⟩ := listGet_lt st.chars st.pos (hlen ▸ hposK)
        have hansome : a ≠ none := by
          intro he
          exact hne (by rw [ha, he])
        obtain ⟨hv, hva⟩ := Option.ne_none_iff_exists'.mp hansome
        obtain ⟨hh0, hmem0⟩ := hconf st.pos hv (by rw [ha, hva])
        exact ⟨hh0, List.mem_append_left _ hmem0⟩
    · intro i h1 hgot
      obtain ⟨hh, hmem⟩ := hconf i h1 hgot
      exact ⟨hh, List.mem_append_left _ hmem⟩
    · intro i hgt hiK
      exact habove i (Nat.lt_of_succ_lt hgt) hiK
    · intro _ hK
      exact habove (st.pos + 1) (Nat.lt_succ_self st.pos) hK

/-- A whole trace preserves the invariant. -/
theorem regInv_trace {K : Nat} {st st1 : RegWorkerState}
    {ls2 : List RegLabel} (htr : regTrace st ls2 st1) :
    ∀ {ls : List RegLabel}, RegInv K ls st → RegInv K (ls ++ ls2) st1 := by
  induction htr with
  | nil st =>
    intro ls hinv
    simpa using hinv
  | cons hstep htr2 ih =>
    intro ls hinv
    have h2 := ih (regInv_step hstep hinv)
    rw [List.append_assoc] at h2
    exact h2

/-- The invariant holds after any trace of a fresh registration worker. -/
theorem regInv_of_trace {s : Service} {ls : List RegLabel}
    {st : RegWorkerState}
    (hall : ∀ c ∈ s.characteristics, c.attribute_handle = none)
    (htr : regTrace s.registrationWorker ls st) :
    RegInv s.characteristics.length ls st := by
  have h := regInv_trace htr (regInv_init s hall)
  simpa using h

/-- A trace over an appended label list splits at the boundary. -/
theorem regTrace_append_split :
    ∀ (xs ys : List RegLabel) {a c : RegWorkerState},
      regTrace a (xs ++ ys) c → ∃ b, regTrace a xs b ∧ regTrace b ys c := by
  intro xs
  induction xs with
  | nil =>
    intro ys a c h
    exact ⟨a, regTrace.nil a, by simpa using h⟩
  | cons x xs ih =>
    intro ys a c h
    cases h with
    | cons hstep htr =>
      obtain ⟨b, h1, h2⟩ := ih ys htr
      exact ⟨b, regTrace.cons hstep h1, h2⟩

/-- C3: over any run of the registration worker spawned by
`Service::register_characteristics` on a service with all characteristics
still unregistered, (a) at most `K` registration commands are ever issued
and a completed run (position `K`, not waiting) has issued exactly `K`;
(b) the commands issued never exceed the confirmations received by more than
one — no two registration commands are ever in flight simultaneously; and
(c) whenever the command for characteristic `j` is issued, every earlier
characteristic `i < j` has already been confirmed (its handle set) earlier
in the trace — registration is strictly serial. -/
theorem C3_serial_registration (s : Service)
    (hall : ∀ c ∈ s.characteristics, c.attribute_handle = none)
    (ls : List RegLabel) (st : RegWorkerState)
    (htr : regTrace s.registrationWorker ls st) :
    countIssues ls ≤ s.characteristics.length ∧
    (st.pos = s.characteristics.length ∧ st.issued = false →
      countIssues ls = s.characteristics.length) ∧
    countIssues ls ≤ countConfirms ls + 1 ∧
    (∀ pre j post, ls = pre ++ RegLabel.issue j :: post →
      ∀ i, i < j → ∃ hh, RegLabel.confirm i hh ∈ pre) := by
  obtain ⟨hlen, hpos, hposlt, hciF, hciT, hccF, hccN, hccS, horder, hconf,
    habove, hcur⟩ := regInv_of_trace hall htr
  refine ⟨?_, ?_, ?_, ?_⟩
  · cases hbi : st.issued with
    | false =>
      rw [hciF hbi]
      exact hpos
    | true =>
      rw [hciT hbi]
      exact hposlt hbi
  · rintro ⟨hp, hb⟩
    rw [hciF hb, hp]
  · cases hbi : st.issued with
    | false =>
      rw [hciF hbi, hccF hbi]
      omega
    | true =>
      by_cases hcell : st.chars.get? st.pos = some none
      · rw [hciT hbi, hccN hcell]
      · rw [hciT hbi, hccS hbi hcell]
        omega
  · intro pre j post heq i hij
    obtain ⟨b, h1, h2⟩ :=
      regTrace_append_split pre (RegLabel.issue j :: post) (heq ▸ htr)
    cases h2 with
    | cons hstep htr3 =>
      cases hstep with
      | issue hbiss hblt =>
        obtain ⟨_, _, _, _, _, _, _, _, horderb, _, _, _⟩ :=
          regInv_of_trace hall h1
        exact horderb i hij

/-- C3 witness: a complete run for the one-characteristic service — issue,
confirm, advance — issues exactly one command and never exceeds the
confirmations by more than one. -/
theorem C3_serial_registration_witness :
    countIssues c3Trace = c3Service.characteristics.length ∧
      countIssues c3Trace ≤ countConfirms c3Trace + 1 := by
  have hall : ∀ c ∈ c3Service.characteristics, c.attribute_handle = none := by
    intro c hc
    simp only [c3Service] at hc
    rw [List.mem_singleton] at hc
    subst hc
    rfl
  have t1 : regStep ⟨[none], 0, false⟩ (RegLabel.issue 0) ⟨[none], 0, true⟩ :=
    regStep.issue ⟨[none], 0, false⟩ rfl (by decide)
  have t2 : regStep ⟨[none], 0, true⟩ (RegLabel.confirm 0 7)
      ⟨[some 7], 0, true⟩ :=
    regStep.confirm ⟨[none], 0, true⟩ 7 rfl rfl
  have t3 : regStep ⟨[some 7], 0, true⟩ (RegLabel.advance 0)
      ⟨[some 7], 1, false⟩ :=
    regStep.advance ⟨[some 7], 0, true⟩ rfl (by decide)
  have htr : regTrace c3Service.registrationWorker c3Trace
      ⟨[some 7], 1, false⟩ :=
    regTrace.cons t1 (regTrace.cons t2 (regTrace.cons t3
      (regTrace.nil ⟨[some 7], 1, false⟩)))
  have h := C3_serial_registration c3Service hall c3Trace
    ⟨[some 7], 1, false⟩ htr
  exact ⟨h.2.1 ⟨rfl, rfl⟩, h.2.2.1⟩
